import Mathlib

/-!
Shallow embedding of the minirag repository (src/app/{main,qa,qa_graph,ingestion,utils}.py)
for checking its natural-language specification.

Python strings are modelled by Lean `String`; Python `None`-able values by `Option`;
Python dict metadata is modelled by its only relevant key, `"source"`. Python `set`
objects are unordered collections: CPython enumerates a set in hash-table order,
which is unspecified by the language — it varies with the per-process hash seed
and, under collisions, with insertion history. Accordingly, `list(set(xs))` is
modelled by an abstract enumeration function constrained only by what CPython
does guarantee (`IsSetEnumeration`: duplicate-free, exactly the inserted
elements); a statement about the program holds only if it holds for every
admissible enumeration. `pySetList` is one concrete admissible enumeration
(lexicographic), used where the conclusion is order-insensitive and as an
explicit admissible behavior in refutations.
-/

namespace MiniRag

/-! ### Python string primitives -/

/-- The whitespace characters removed by Python `str.strip()` (ASCII range;
Python also strips further Unicode whitespace, irrelevant to the claims). -/
def pyIsSpace (c : Char) : Bool :=
  c = ' ' || c = '\t' || c = '\n' || c = '\x0d' || c = '\x0b' || c = '\x0c'

/-- Python `s.strip()`: remove leading and trailing whitespace. -/
def pyStrip (s : String) : String :=
  ⟨((s.data.dropWhile pyIsSpace).reverse.dropWhile pyIsSpace).reverse⟩

/-! ### Model of a Python `set` of strings -/

/-- Lexicographic order on strings via their character lists (used only to pick a
canonical enumeration of a set; kernel-reducible, unlike `String.le`). -/
def strLe (a b : String) : Prop := a.data ≤ b.data

instance : DecidableRel strLe := fun a b => inferInstanceAs (Decidable (a.data ≤ b.data))

/-- What CPython guarantees about `list(s)` for a set `s` built by inserting the
elements of `xs` in order: the result is duplicate-free and holds exactly the
inserted elements. Nothing is guaranteed about its order — the enumeration may
depend on the hash seed and on the insertion sequence, which is why this is a
predicate over functions of the full insertion sequence. -/
def IsSetEnumeration (enum : List String → List String) : Prop :=
  ∀ xs : List String, (enum xs).Nodup ∧ ∀ a, a ∈ enum xs ↔ a ∈ xs

/-- One admissible set enumeration: the mathematical set of `xs`, enumerated
lexicographically. Used where conclusions are order-insensitive, and as an
explicit admissible behavior when refuting claimed order guarantees. -/
def pySetList (xs : List String) : List String :=
  List.insertionSort strLe xs.dedup

theorem pySetList_nodup (xs : List String) : (pySetList xs).Nodup :=
  ((List.perm_insertionSort strLe xs.dedup).nodup_iff).mpr xs.nodup_dedup

theorem mem_pySetList {a : String} {xs : List String} : a ∈ pySetList xs ↔ a ∈ xs :=
  ((List.perm_insertionSort strLe xs.dedup).mem_iff).trans List.mem_dedup

theorem pySetList_isSetEnumeration : IsSetEnumeration pySetList :=
  fun xs => ⟨pySetList_nodup xs, fun _ => mem_pySetList⟩

theorem pySetList_count_eq_one {a : String} {xs : List String} (h : a ∈ xs) :
    (pySetList xs).count a = 1 :=
  List.count_eq_one_of_mem (pySetList_nodup xs) (mem_pySetList.mpr h)

/-! ### Data model (langchain `Document`, restricted to the fields the code reads) -/

/-- A langchain `Document`/chunk: `page_content` plus the `"source"` key of its
metadata dict (`none` when the key is absent or the metadata dict is `None`). -/
structure PyDocument where
  page_content : String
  source : Option String
deriving DecidableEq

/-- Python `(metadata or {}).get("source") or "unknown"` (qa.py line 93 and
ingestion.py line 36): both a missing key and an empty string are falsy,
so both are replaced by `"unknown"`. -/
def sourceOrUnknown (meta : Option String) : String :=
  match meta with
  | none => "unknown"
  | some s => if s = "" then "unknown" else s

theorem sourceOrUnknown_ne_empty (meta : Option String) : sourceOrUnknown meta ≠ "" := by
  cases meta with
  | none => decide
  | some s => by_cases hs : s = "" <;> simp [sourceOrUnknown, hs]

/-! ### qa.py -/

/-- The fields of the dict returned by `chain.invoke` that `answer_with_sources`
reads: the answer text and the retrieved context documents. -/
structure ChainResult where
  answer : String
  context : List PyDocument

/-- qa.py `answer_with_sources` (lines 86-95) with the set enumeration kept
abstract: collect `(d.metadata or {}).get("source") or "unknown"` for each
context document into a Python `set` and return `(answer, sources)`; `main.py`
line 174 then applies `list(...)`, whose order CPython leaves unspecified, so
`enum` ranges over the admissible enumerations (`IsSetEnumeration`). -/
def answer_with_sources_enum (enum : List String → List String) (res : ChainResult) :
    String × List String :=
  (res.answer, enum (res.context.map (fun d => sourceOrUnknown d.source)))

/-- qa.py `answer_with_sources` under the concrete admissible enumeration
`pySetList`, for claims whose conclusions do not depend on the enumeration
order. -/
def answer_with_sources (res : ChainResult) : String × List String :=
  (res.answer, pySetList (res.context.map (fun d => sourceOrUnknown d.source)))

theorem answer_with_sources_eq_enum (res : ChainResult) :
    answer_with_sources res = answer_with_sources_enum pySetList res := rfl

/-! ### qa_graph.py -/

/-- qa_graph.py `generate` (line 53): the sources set comprehension
`{ (d.metadata or {}).get("source", "unknown") for d in docs }` — note
`.get` with a default replaces only a missing key, not an empty string. -/
def generateSources (docs : List PyDocument) : List String :=
  pySetList (docs.map (fun d => d.source.getD "unknown"))

/-! ### ingestion.py — chunking -/

/-- ingestion.py `split_text_documents` (lines 21-37). The body of langchain's
`RecursiveCharacterTextSplitter.split_documents` is external library code, so the
text-splitting itself is abstracted as a parameter `splitText`; what the library
guarantees and the claims rely on is that each produced chunk for a document
carries a copy of that document's metadata. The loop at lines 34-36 then rewrites
each chunk's source to `c.metadata.get("source") or "unknown"`. -/
def split_text_documents (splitText : String → List String) (docs : List PyDocument) :
    List PyDocument :=
  let chunks : List PyDocument := docs.flatMap
    (fun d => (splitText d.page_content).map
      (fun t => ({ page_content := t, source := d.source } : PyDocument)))
  chunks.map (fun c => { c with source := some (sourceOrUnknown c.source) })

/-! ### ingestion.py — FAISS vectorstore persistence, modelled index -/

/-- A stored record of the vector index: chunk text, source id, embedding vector.
Embeddings are modelled with integer components (the claims settled here do not
depend on floating-point rounding). -/
structure VectorRecord where
  content : String
  source : String
  embedding : List Int
deriving DecidableEq

/-- Modelled from the spec: the Vector Index is "the set of all Vector Records
for a corpus" (§3); FAISS itself is external library code. -/
abbrev Index : Type := List VectorRecord

/-- Dot-product similarity between a query vector and a stored embedding. -/
def dot : List Int → List Int → Int
  | [], _ => 0
  | _, [] => 0
  | x :: xs, y :: ys => x * y + dot xs ys

/-- Insert a scored record into a list sorted by descending score (stable:
an equal score goes after the existing entries, preserving insertion rank). -/
def insertByScore (p : VectorRecord × Int) : List (VectorRecord × Int) → List (VectorRecord × Int)
  | [] => [p]
  | q :: qs => if q.2 < p.2 then p :: q :: qs else q :: insertByScore p qs

/-- Sort scored records by descending score. -/
def sortByScore : List (VectorRecord × Int) → List (VectorRecord × Int)
  | [] => []
  | p :: ps => insertByScore p (sortByScore ps)

/-- Modelled from the spec: `search(query_vector, k)` "returns the k records with
highest similarity" ordered "by descending similarity; ties broken by original
insertion order" (§3, §4.2); FAISS similarity search is external library code. -/
def search (idx : Index) (q : List Int) (k : Nat) : List (VectorRecord × Int) :=
  (sortByScore ((idx : List VectorRecord).map (fun r => (r, dot q r.embedding)))).take k

/-- One serialized record of a snapshot (`index.faiss` + `index.pkl` content). -/
inductive SnapEntry where
  | entry (content source : String) (embedding : List Int)
deriving DecidableEq

/-- What `load_vectorstore` can find at `index_dir`: no snapshot (missing dir or
empty dir), an unreadable/corrupt snapshot, or a saved list of records. -/
inductive SnapshotState where
  | missing
  | corrupt
  | saved (entries : List SnapEntry)
deriving DecidableEq

def encodeRecord (r : VectorRecord) : SnapEntry :=
  .entry r.content r.source r.embedding

def decodeRecord : SnapEntry → VectorRecord
  | .entry c s e => ⟨c, s, e⟩

theorem decodeRecord_encodeRecord (r : VectorRecord) : decodeRecord (encodeRecord r) = r := rfl

/-- Modelled from the spec: FAISS `save_local` "durably serializes all Vector
Records (embedding + chunk + source)" (§4.2); it is external library code. -/
def faiss_save_local (idx : Index) : SnapshotState :=
  .saved ((idx : List VectorRecord).map encodeRecord)

/-- ingestion.py `save_vectorstore` (lines 47-53): create the directory and call
`vs.save_local(index_dir)` (the mkdir and logging have no effect on the snapshot
contents). -/
def save_vectorstore (vs : Index) : SnapshotState :=
  faiss_save_local vs

/-- Modelled from the spec: FAISS `load_local` "reconstructs an index functionally
identical for search purposes" from a snapshot and raises on a corrupt/unreadable
one (§4.2); it is external library code. -/
def faiss_load_local : SnapshotState → Except String Index
  | .saved es => .ok (es.map decodeRecord)
  | .corrupt => .error "could not deserialize snapshot"
  | .missing => .error "no snapshot at path"

/-- ingestion.py `load_vectorstore` (lines 56-69): inside a `try` that catches
every exception, return `None` early when the path does not exist or the
directory is empty; otherwise call `FAISS.load_local`; on any exception log a
warning and return `None`. The function is total into `Option Index`: no error
escapes it. -/
def load_vectorstore : SnapshotState → Option Index
  | .missing => none
  | .corrupt =>
    match faiss_load_local .corrupt with
    | .ok vs => some vs
    | .error _ => none
  | .saved es =>
    match faiss_load_local (.saved es) with
    | .ok vs => some vs
    | .error _ => none

/-! ### main.py — the `/ask` handler and its engine selector -/

/-- The per-request engine override: FastAPI validates the query parameter
against `Literal["graph", "chain"]` (the spec calls the graph engine "staged"). -/
inductive Engine where
  | graph
  | chain
deriving DecidableEq

/-- The `app.state` fields (plus the module-level `LANGGRAPH_AVAILABLE` flag)
that the `/ask` handler reads. `graph_chain` and `retrieval_chain` record
whether the corresponding pipeline object is not `None`. -/
structure AppState where
  vectorstore : Option Index
  use_langgraph : Bool
  langgraph_available : Bool
  graph_chain : Bool
  retrieval_chain : Bool
deriving DecidableEq

/-- The engine decision of main.py lines 157-163
(`per-call override > global default > fallback`, as the code comments it):
`engine == "graph"` → `LANGGRAPH_AVAILABLE and graph_chain is not None`;
`engine == "chain"` → `False`;
no override → `use_langgraph and LANGGRAPH_AVAILABLE and graph_chain is not None`. -/
def use_graph (st : AppState) (engine : Option Engine) : Bool :=
  match engine with
  | some .graph => st.langgraph_available && st.graph_chain
  | some .chain => false
  | none => st.use_langgraph && (st.langgraph_available && st.graph_chain)

/-- Availability of the staged (LangGraph) pipeline: the module imported AND the
compiled graph chain was constructed. -/
def staged_available (st : AppState) : Bool :=
  st.langgraph_available && st.graph_chain

/-- The observable outcome of one `/ask` request: a 400 input error with its
detail string, or an answer produced by the LangGraph (staged) pipeline, or an
answer produced by the RetrievalQA (chain) pipeline. -/
inductive AskOutcome where
  | inputError (detail : String)
  | graphAnswer (answer : String) (sources : List String)
  | chainAnswer (answer : String) (sources : List String)
deriving DecidableEq

/-- main.py `ask` (lines 141-177). The two pipelines are passed as functions
from the (stripped) question to an `(answer, sources)` pair: `graphRun` stands
for `answer_with_langgraph(app.state.graph_chain, ·)` and `chainRun` for
`answer_with_sources(app.state.retrieval_chain, ·)` — they are the only places
the Embedding Port and Generation Port are reached from this handler, so an
outcome that is the same for every `graphRun`/`chainRun` involved no provider
call. When the chain branch finds `retrieval_chain` absent it rebuilds it from
the vectorstore (lines 169-170) and then answers the same question, so the
response is `chainRun question` either way. Provider exceptions (the
`except` at lines 175-177) are out of scope of the claims settled here, so the
pipeline functions are total. -/
def ask (st : AppState) (graphRun chainRun : String → String × List String)
    (reqQuestion : String) (engine : Option Engine) : AskOutcome :=
  if st.vectorstore.isNone then
    .inputError "Knowledge base is empty. Upload documents via /upload first."
  else
    let question := pyStrip reqQuestion
    if question = "" then
      .inputError "Question must not be empty."
    else if use_graph st engine then
      .graphAnswer (graphRun question).1 (graphRun question).2
    else
      .chainAnswer (chainRun question).1 (chainRun question).2

/-! ### Definitions written from the spec's words (for refinement claims) -/

/-- Helper for `specDedupOrder`: keep each string the first time it is seen. -/
def firstOccurGo : List String → List String → List String
  | [], _ => []
  | x :: xs, seen => if x ∈ seen then firstOccurGo xs seen else x :: firstOccurGo xs (x :: seen)

/-- The spec's `dedupe` (§4.7): "removes duplicates; order in the final response
is insertion order of first occurrence (not lexicographic)". -/
def specDedupOrder (xs : List String) : List String :=
  firstOccurGo xs []

/-! ## Claims -/

/-- Claim C5: an ask request made before any ingestion (`app.state.vectorstore is
None`) is answered with the 400 input error "Knowledge base is empty…". The
conclusion holds for every `graphRun`/`chainRun`, i.e. the outcome does not
depend on the pipelines, so no Embedding Port or Generation Port call is made. -/
theorem C5_empty_index_input_error (st : AppState)
    (graphRun chainRun : String → String × List String) (q : String) (e : Option Engine)
    (h : st.vectorstore = none) :
    ask st graphRun chainRun q e
      = .inputError "Knowledge base is empty. Upload documents via /upload first." := by
  simp [ask, h]

/-- Witness for C5 at a concrete uninitialized state and question. -/
theorem C5_empty_index_input_error_witness :
    ask ⟨none, true, true, true, true⟩
        (fun _ => ("graph answer", ["g.txt"])) (fun _ => ("chain answer", ["c.txt"]))
        "What is the capital of France?" none
      = .inputError "Knowledge base is empty. Upload documents via /upload first." :=
  C5_empty_index_input_error _ _ _ _ _ rfl

/-- Claim C6: with an initialized index, asking the empty question `""` yields the
400 input error "Question must not be empty.". The conclusion is independent of
`graphRun`/`chainRun`, so no Embedding Port call is made. -/
theorem C6_empty_question_input_error (st : AppState)
    (graphRun chainRun : String → String × List String) (e : Option Engine)
    (h : st.vectorstore.isSome = true) :
    ask st graphRun chainRun "" e = .inputError "Question must not be empty." := by
  obtain ⟨v, hv⟩ := Option.isSome_iff_exists.mp h
  have h0 : pyStrip "" = "" := by decide
  simp [ask, hv, h0]

/-- Witness for C6 at a concrete initialized state. -/
theorem C6_empty_question_input_error_witness :
    ask ⟨some [], true, true, true, true⟩
        (fun _ => ("graph answer", ["g.txt"])) (fun _ => ("chain answer", ["c.txt"]))
        "" none
      = .inputError "Question must not be empty." :=
  C6_empty_question_input_error _ _ _ _ rfl

/-- Claim C10: the question is stripped (`req.question.strip()`) before the
emptiness check, so a whitespace-only question is rejected with the same
"Question must not be empty." input error, independently of the pipelines
(hence no Embedding Port call). -/
theorem C10_whitespace_question_input_error (st : AppState)
    (graphRun chainRun : String → String × List String) (q : String) (e : Option Engine)
    (h : st.vectorstore.isSome = true) (hq : pyStrip q = "") :
    ask st graphRun chainRun q e = .inputError "Question must not be empty." := by
  obtain ⟨v, hv⟩ := Option.isSome_iff_exists.mp h
  simp [ask, hv, hq]

/-- Witness for C10 at a concrete whitespace-only question. -/
theorem C10_whitespace_question_input_error_witness :
    ask ⟨some [], true, true, true, true⟩
        (fun _ => ("graph answer", ["g.txt"])) (fun _ => ("chain answer", ["c.txt"]))
        "  \t\n  " none
      = .inputError "Question must not be empty." :=
  C10_whitespace_question_input_error _ _ _ _ _ rfl (by decide)

/-- Claim C1 is false on the code (counterexample): with the staged (LangGraph)
pipeline unavailable (`LANGGRAPH_AVAILABLE = False`, `graph_chain = None`) and an
explicit `engine=graph` override, `ask` does not return an input error — it
silently answers through the Chain variant. -/
theorem C1_counterexample :
    ask ⟨some [], true, false, false, true⟩
        (fun _ => ("graph answer", ["g.txt"])) (fun _ => ("chain answer", ["c.txt"]))
        "What is the capital of France?" (some .graph)
      = .chainAnswer "chain answer" ["c.txt"] := by
  decide

/-- Claim C1 (amended): when the staged pipeline is explicitly requested but
unavailable, every well-formed ask request (initialized index, non-empty stripped
question) silently falls back to the Chain variant; no caller error is raised. -/
theorem C1_explicit_graph_unavailable_falls_back (st : AppState)
    (graphRun chainRun : String → String × List String) (q : String)
    (hv : st.vectorstore.isSome = true) (hq : pyStrip q ≠ "")
    (hna : staged_available st = false) :
    ask st graphRun chainRun q (some .graph)
      = .chainAnswer (chainRun (pyStrip q)).1 (chainRun (pyStrip q)).2 := by
  obtain ⟨v, hv2⟩ := Option.isSome_iff_exists.mp hv
  have hug : use_graph st (some .graph) = false := by
    simpa [use_graph, staged_available] using hna
  simp [ask, hv2, hq, hug]

/-- Witness for the amended C1 at a concrete state with LangGraph unavailable. -/
theorem C1_explicit_graph_unavailable_falls_back_witness :
    ask ⟨some [], true, false, false, true⟩
        (fun _ => ("graph answer", ["g.txt"])) (fun _ => ("chain answer", ["c.txt"]))
        "What is X?" (some .graph)
      = .chainAnswer "chain answer" ["c.txt"] :=
  C1_explicit_graph_unavailable_falls_back _ _ _ _ rfl (by decide) rfl

/-- Claim C2: the engine selector's precedence, exactly as specified — explicit
`engine=chain` always answers through the Chain variant; with no explicit choice
the staged (LangGraph) variant runs iff the process default is on AND the staged
pipeline is available, otherwise the Chain variant runs; and an explicit
per-request choice makes the outcome independent of the process default. -/
theorem C2_selector_precedence (st : AppState)
    (graphRun chainRun : String → String × List String) (q : String)
    (hv : st.vectorstore.isSome = true) (hq : pyStrip q ≠ "") :
    (ask st graphRun chainRun q (some .chain)
        = .chainAnswer (chainRun (pyStrip q)).1 (chainRun (pyStrip q)).2)
    ∧ (ask st graphRun chainRun q none
        = if st.use_langgraph && staged_available st then
            .graphAnswer (graphRun (pyStrip q)).1 (graphRun (pyStrip q)).2
          else
            .chainAnswer (chainRun (pyStrip q)).1 (chainRun (pyStrip q)).2)
    ∧ (∀ e : Engine, ∀ d : Bool,
        ask { st with use_langgraph := d } graphRun chainRun q (some e)
          = ask st graphRun chainRun q (some e)) := by
  obtain ⟨v, hv2⟩ := Option.isSome_iff_exists.mp hv
  refine ⟨by simp [ask, hv2, hq, use_graph], ?_, ?_⟩
  · cases h : st.use_langgraph && staged_available st with
    | true =>
      have : use_graph st none = true := by
        simpa [use_graph, staged_available, Bool.and_assoc] using h
      simp [ask, hv2, hq, this]
    | false =>
      have : use_graph st none = false := by
        simpa [use_graph, staged_available, Bool.and_assoc] using h
      simp [ask, hv2, hq, this]
  · intro e d
    cases e <;> simp [ask, use_graph, hv2, hq]

/-- Witness for C2 at a concrete state (default preference off, staged
available) and question. -/
theorem C2_selector_precedence_witness :
    ask ⟨some [], false, true, true, true⟩
        (fun _ => ("graph answer", ["g.txt"])) (fun _ => ("chain answer", ["c.txt"]))
        "What is X?" (some .chain)
      = .chainAnswer "chain answer" ["c.txt"] :=
  (C2_selector_precedence ⟨some [], false, true, true, true⟩
    (fun _ => ("graph answer", ["g.txt"])) (fun _ => ("chain answer", ["c.txt"]))
    "What is X?" rfl (by decide)).1

/-- Claim C7: `load_vectorstore` is total — it returns the loaded index on a
readable snapshot, and `none` (rather than raising) both when no snapshot exists
at the path and when the snapshot is corrupt/unreadable (the `except` absorbs
the error after logging), leaving the system in the uninitialized-index state. -/
theorem C7_restore_never_raises (s : SnapshotState) :
    load_vectorstore s
      = match s with
        | .saved es => some (es.map decodeRecord)
        | .missing => none
        | .corrupt => none := by
  cases s <;> rfl

/-- Claim C3 is false on the code (counterexample): `answer_with_sources` puts
the source ids into a Python `set`, whose enumeration order CPython leaves
unspecified. Even at the single concrete retrieval with sources `"b.txt"` then
`"a.txt"`, it is not the case that every admissible set enumeration yields the
first-occurrence order `["b.txt", "a.txt"]` the claim requires — so the code
does not guarantee the claimed order. -/
theorem C3_counterexample :
    ¬ ∀ enum : List String → List String, IsSetEnumeration enum →
        (answer_with_sources_enum enum
            ⟨"some answer", [⟨"chunk one", some "b.txt"⟩, ⟨"chunk two", some "a.txt"⟩]⟩).2
          = specDedupOrder
              (([⟨"chunk one", some "b.txt"⟩, ⟨"chunk two", some "a.txt"⟩] : List PyDocument).map
                (fun d => sourceOrUnknown d.source)) := by
  intro h
  exact absurd (h pySetList pySetList_isSetEnumeration) (by decide)

/-- Claim C3 (amended): for every admissible enumeration of the Python set, the
response sources are deduplicated (no repeats) and are exactly the source ids of
the retrieved chunks; their order is unspecified and need not be the insertion
order of first occurrence. -/
theorem C3_sources_are_a_set (enum : List String → List String)
    (henum : IsSetEnumeration enum) (res : ChainResult) :
    (answer_with_sources_enum enum res).2.Nodup
    ∧ ∀ s, s ∈ (answer_with_sources_enum enum res).2
        ↔ s ∈ res.context.map (fun d => sourceOrUnknown d.source) :=
  ⟨(henum _).1, fun s => (henum _).2 s⟩

/-- Witness for the amended C3 at the concrete admissible enumeration
`pySetList` and a concrete retrieval with a repeated source. -/
theorem C3_sources_are_a_set_witness :
    (answer_with_sources_enum pySetList
        ⟨"one", [⟨"c1", some "x.txt"⟩, ⟨"c2", some "x.txt"⟩]⟩).2.Nodup :=
  (C3_sources_are_a_set pySetList pySetList_isSetEnumeration
    ⟨"one", [⟨"c1", some "x.txt"⟩, ⟨"c2", some "x.txt"⟩]⟩).1

/-- Claim C4: if the retrieved top-K chunk sequence carries the same source id
two or more times, the response sources contain that id exactly once — in the
Chain variant (`answer_with_sources`) and in the Staged variant (the sources set
built by `generate` in qa_graph.py). -/
theorem C4_source_dedup_both_variants (ans : String) (docs : List PyDocument) (sid : String)
    (hs : sid ≠ "")
    (hcount : 2 ≤ docs.countP (fun d => decide (d.source = some sid))) :
    ((answer_with_sources ⟨ans, docs⟩).2.count sid = 1)
    ∧ ((generateSources docs).count sid = 1) := by
  have hpos : 0 < docs.countP (fun d => decide (d.source = some sid)) :=
    lt_of_lt_of_le (by norm_num) hcount
  obtain ⟨d, hd, hds⟩ := by simpa using List.countP_pos_iff.mp hpos
  constructor
  · refine pySetList_count_eq_one (List.mem_map.mpr ⟨d, hd, ?_⟩)
    rw [hds]
    simp [sourceOrUnknown, hs]
  · refine pySetList_count_eq_one (List.mem_map.mpr ⟨d, hd, ?_⟩)
    rw [hds]
    rfl

/-- Witness for C4 at a concrete retrieval containing `"a.txt"` twice. -/
theorem C4_source_dedup_both_variants_witness :
    ((answer_with_sources
        ⟨"ans", [⟨"c1", some "a.txt"⟩, ⟨"c2", some "a.txt"⟩]⟩).2.count "a.txt" = 1)
    ∧ ((generateSources [⟨"c1", some "a.txt"⟩, ⟨"c2", some "a.txt"⟩]).count "a.txt" = 1) :=
  C4_source_dedup_both_variants "ans" [⟨"c1", some "a.txt"⟩, ⟨"c2", some "a.txt"⟩] "a.txt"
    (by decide) (by decide)

/-- Claim C8: `split_text_documents` gives every produced chunk the source of the
document it came from, substituting the literal `"unknown"` when that source is
absent or the empty string; consequently every chunk carries a non-empty source. -/
theorem C8_chunk_source_nonempty (splitText : String → List String) (docs : List PyDocument) :
    split_text_documents splitText docs
      = docs.flatMap (fun d => (splitText d.page_content).map
          (fun t => ⟨t, some (sourceOrUnknown d.source)⟩))
    ∧ ∀ c ∈ split_text_documents splitText docs, ∃ s, c.source = some s ∧ s ≠ "" := by
  have heq : split_text_documents splitText docs
      = docs.flatMap (fun d => (splitText d.page_content).map
          (fun t => ⟨t, some (sourceOrUnknown d.source)⟩)) := by
    simp only [split_text_documents, List.map_flatMap, List.map_map]
    rfl
  refine ⟨heq, fun c hc => ?_⟩
  rw [heq] at hc
  obtain ⟨d, _, hcd⟩ := List.mem_flatMap.mp hc
  obtain ⟨t, _, hct⟩ := List.mem_map.mp hcd
  exact ⟨sourceOrUnknown d.source, by rw [← hct], sourceOrUnknown_ne_empty d.source⟩

/-- Witness for C8: a document whose source metadata is the empty string yields a
chunk whose source is the non-empty literal `"unknown"`. -/
theorem C8_chunk_source_nonempty_witness :
    ∃ s, (⟨"Paris is the capital of France.", some "unknown"⟩ : PyDocument).source = some s
      ∧ s ≠ "" :=
  (C8_chunk_source_nonempty (fun t => [t])
      [⟨"Paris is the capital of France.", some ""⟩]).2
    ⟨"Paris is the capital of France.", some "unknown"⟩ (by decide)

/-- Claim C9: restoring a snapshot of an index yields an index whose `search`
results — records and rank order — are identical to the original's for every
query and every k (serialization round-trips through `save_vectorstore` and
`load_vectorstore`). -/
theorem C9_snapshot_roundtrip (idx : Index) (q : List Int) (k : Nat) :
    (load_vectorstore (save_vectorstore idx)).map (fun i => search i q k)
      = some (search idx q k) := by
  have hdec : ∀ l : List VectorRecord, (l.map encodeRecord).map decodeRecord = l := by
    intro l
    induction l with
    | nil => rfl
    | cons r rs ih => simp [ih, decodeRecord_encodeRecord]
  simp [save_vectorstore, faiss_save_local, load_vectorstore, faiss_load_local, hdec idx]

end MiniRag
